import Mathlib

/-!
Shallow embedding of the HashiCorp Vault client (vault_client.rs) of the
tmkms remote-signing provider, together with theorems settling the frozen
claims about its specification.  Pure protocol logic (codecs, selection,
classification, cache, construction) is translated into executable Lean
definitions; the HTTP/TLS transport, the file system and the PEM parser are
passed in as explicit capabilities, and Rust panics are modelled as a
distinct outcome constructor.
-/

namespace Hashicorp

/-- Opaque pass-through JSON fields of the response envelope (the serde
Value fields wrap_info, warnings, auth), not interpreted by the client. -/
abbrev JsonValue := String

/-- Modelled from the spec: the typed error enum of the provider error
module (error.rs), which is not under src/.  Variants follow the spec's
taxonomy: Transport, HttpStatus, MalformedResponse, InvalidPubKey,
InvalidEmptyMessage, InvalidSignature, NoSignature, ProhibitedResponseCode,
plus the propagated base64 decode error.  The spec describes HttpStatus as
carrying code and uri, but the conversion the source performs (a From
instance applied to a ureq status-code error) receives only the numeric
code, so the modelled variant carries the code alone. -/
inductive Error where
  | transport (cause : String)
  | httpStatus (code : Nat)
  | malformedResponse (msg : String)
  | invalidPubKey (msg : String)
  | invalidEmptyMessage
  | invalidSignature (msg : String)
  | noSignature
  | prohibitedResponseCode (code : String) (uri : String)
  | base64DecodeError (msg : String)
  deriving DecidableEq

/-- Payload of a Rust panic: either the Display rendering of an error value
(the classifier's fatal branch) or a plain message (expect / unwrap). -/
inductive PanicMsg where
  | displayError (e : Error)
  | str (s : String)
  deriving DecidableEq

/-- Result of running a fallible Rust function that may also panic. -/
inductive Outcome (α : Type) where
  | ok (value : α)
  | err (e : Error)
  | panicked (msg : PanicMsg)
  deriving DecidableEq

/-- The standard base64 alphabet used by base64::encode / base64::decode. -/
def b64Alphabet : List Char :=
  "ABCDEFGHIJKLMNOPQRSTUVWXYZabcdefghijklmnopqrstuvwxyz0123456789+/".data

/-- Index of a character in the base64 alphabet, none for non-alphabet
characters (including the padding character). -/
def b64IndexOf (c : Char) : Option Nat :=
  b64Alphabet.findIdx? (fun d => d == c)

/-- Character of the base64 alphabet at a given sextet value. -/
def b64Char (i : Nat) : Char :=
  b64Alphabet.getD i 'A'

/-- Encode a final group of 1, 2 or 3 bytes as 4 base64 characters with
padding (the shape produced by base64::encode). -/
def base64EncodeChunk : List Nat → List Char
  | [a] => [b64Char (a / 4), b64Char (a % 4 * 16), '=', '=']
  | [a, b] => [b64Char (a / 4), b64Char (a % 4 * 16 + b / 16), b64Char (b % 16 * 4), '=']
  | [a, b, c] =>
    [b64Char (a / 4), b64Char (a % 4 * 16 + b / 16), b64Char (b % 16 * 4 + c / 64),
      b64Char (c % 64)]
  | _ => []

/-- Standard base64 encoding of a byte sequence, in groups of three. -/
def base64EncodeBytes : List Nat → List Char
  | [] => []
  | a :: b :: c :: rest => base64EncodeChunk [a, b, c] ++ base64EncodeBytes rest
  | rest => base64EncodeChunk rest

/-- Reassemble three bytes from four base64 sextets. -/
def base64DecodeChunk4 (x y z w : Nat) : List Nat :=
  [x * 4 + y / 16, y % 16 * 16 + z / 4, z % 4 * 64 + w]

/-- Standard base64 decoding (the behaviour of base64::decode): processed
in groups of four characters, padding permitted only in the final group,
non-zero trailing bits and group lengths of one rejected. -/
def base64DecodeChars : List Char → Option (List Nat)
  | [] => some []
  | [a, b] =>
    match b64IndexOf a, b64IndexOf b with
    | some x, some y => if y % 16 = 0 then some [x * 4 + y / 16] else none
    | _, _ => none
  | [a, b, c] =>
    match b64IndexOf a, b64IndexOf b, b64IndexOf c with
    | some x, some y, some z =>
      if z % 4 = 0 then some [x * 4 + y / 16, y % 16 * 16 + z / 4] else none
    | _, _, _ => none
  | a :: b :: c :: d :: rest =>
    if rest.isEmpty then
      match b64IndexOf a, b64IndexOf b with
      | some x, some y =>
        if c == '=' && d == '=' then
          if y % 16 = 0 then some [x * 4 + y / 16] else none
        else
          match b64IndexOf c with
          | some z =>
            if d == '=' then
              if z % 4 = 0 then some [x * 4 + y / 16, y % 16 * 16 + z / 4] else none
            else
              match b64IndexOf d with
              | some w => some (base64DecodeChunk4 x y z w)
              | none => none
          | none => none
      | _, _ => none
    else
      match b64IndexOf a, b64IndexOf b, b64IndexOf c, b64IndexOf d with
      | some x, some y, some z, some w =>
        match base64DecodeChars rest with
        | some bs => some (base64DecodeChunk4 x y z w ++ bs)
        | none => none
      | _, _, _, _ => none
  | _ => none

/-- base64::encode on raw bytes, producing a string. -/
def base64_encode (bytes : List Nat) : String :=
  String.mk (base64EncodeBytes bytes)

/-- base64::decode on a string, none modelling the DecodeError case. -/
def base64_decode (s : String) : Option (List Nat) :=
  base64DecodeChars s.data

/-- Rust str::split on a single separator character: always returns at
least one (possibly empty) part, with empty parts kept. -/
def splitOnChar (sep : Char) : List Char → List (List Char)
  | [] => [[]]
  | c :: rest =>
    if c = sep then [] :: splitOnChar sep rest
    else
      match splitOnChar sep rest with
      | [] => [[c]]
      | p :: ps => (c :: p) :: ps

/-- Substring test on character lists: the pattern occurs somewhere. -/
def listContains (pat : List Char) : List Char → Bool
  | [] => pat.isEmpty
  | c :: rest => pat.isPrefixOf (c :: rest) || listContains pat rest

/-- Substring test on strings: the pattern occurs somewhere in the text. -/
def strContainsStr (s pat : String) : Bool :=
  listContains pat.data s.data

/-- Association-list model of a hash-map lookup (HashMap::get). -/
def lookupKey {β : Type} (key : String) : List (String × β) → Option β
  | [] => none
  | (k, v) :: rest => if k = key then some v else lookupKey key rest

/-- Attribute map of one key version (HashMap of String to String). -/
abbrev AttrMap := List (String × String)

/-- Vault message envelope (struct Root of vault_client.rs): request and
lease identifiers, renewable flag, lease duration, the optional typed
payload data, and opaque pass-through fields. -/
structure Root (T : Type) where
  request_id : String
  lease_id : String
  renewable : Bool
  lease_duration : Int
  data : Option T
  wrap_info : JsonValue
  warnings : JsonValue
  auth : JsonValue
  deriving DecidableEq

/-- Envelope fixture used by concrete statements: only the data field is
significant to the operations under verification. -/
def mkRoot {T : Type} (d : Option T) : Root T :=
  { request_id := "", lease_id := "", renewable := false, lease_duration := 0,
    data := d, wrap_info := "", warnings := "", auth := "" }

/-- Sign request body (struct SignRequest): base64-encoded plaintext. -/
structure SignRequest where
  input : String
  deriving DecidableEq

/-- Sign response payload (struct SignResponse): the signature field. -/
structure SignResponse where
  signature : String
  deriving DecidableEq

/-- Payload of the read-key response (struct PublicKeyResponse inside
public_key): a BTreeMap from version number to attribute map, modelled as
an association list in ascending key order (the BTreeMap iteration
order). -/
structure PublicKeyResponse where
  keys : List (Nat × AttrMap)
  deriving DecidableEq

/-- The expected consensus key type (constant CONSENUS_KEY_TYPE). -/
def CONSENUS_KEY_TYPE : String := "ed25519"

/-- Modelled from the spec: ed25519::VerifyingKey::BYTE_SIZE comes from the
keyring module, which is not under src/; the spec fixes the public-key
prefix at 32 bytes. -/
def VERIFYING_KEY_BYTE_SIZE : Nat := 32

/-- Modelled from the spec: ed25519::Signature::BYTE_SIZE comes from the
keyring module, which is not under src/; the spec fixes the signature
length at 64 bytes. -/
def SIGNATURE_BYTE_SIZE : Nat := 64

/-- Transport-level failure of the HTTP capability (ureq::Error) as
consumed by the classifier: a non-2xx status code, or any other transport
failure (connection, TLS, timeout) with its cause. -/
inductive UreqError where
  | statusCode (code : Nat)
  | other (cause : String)
  deriving DecidableEq

/-- Modelled from the spec: the conversion of transport errors into the
provider error type lives in error.rs, which is not under src/.  A
status-code error becomes the recoverable HttpStatus error carrying the
numeric code, which is the only datum the conversion receives; any other
transport failure is wrapped as a Transport error carrying the cause. -/
def errorFromUreq : UreqError → Error
  | .statusCode code => .httpStatus code
  | .other cause => .transport cause

/-- VaultClient::check_response_status_code: a successful response passes
through unchanged; a status-code failure whose code is in the configured
exit_on_error set panics with the Display of ProhibitedResponseCode (the
fail-fast process termination); any other failure is converted into the
provider error type. -/
def check_response_status_code {α : Type} (exit_on_error : List Nat) (uri : String)
    (response : Except UreqError α) : Outcome α :=
  match response with
  | .ok r => .ok r
  | .error (.statusCode code) =>
    if code ∈ exit_on_error then
      .panicked (.displayError (.prohibitedResponseCode (Nat.repr code) uri))
    else
      .err (errorFromUreq (.statusCode code))
  | .error e => .err (errorFromUreq e)

/-- The key-version selection step of public_key: the versions arrive in a
BTreeMap, iterated in ascending key order, and the code takes
data.keys.iter().last() - the entry with the maximum version number. -/
def select_latest (keys : List (Nat × AttrMap)) : Option (Nat × AttrMap) :=
  keys.getLast?

/-- The public-key decoding tail of public_key: base64::decode propagating
the decode error, then the unchecked slice pubk[..32] copied into the
fixed-size array; a successful decode of fewer than 32 bytes panics at the
slice. -/
def decode_public_key (pubk : String) : Outcome (List Nat) :=
  match base64_decode pubk with
  | none => .err (.base64DecodeError ("invalid base64"))
  | some bytes =>
    if VERIFYING_KEY_BYTE_SIZE ≤ bytes.length then
      .ok (bytes.take VERIFYING_KEY_BYTE_SIZE)
    else
      .panicked (.str ("range end index 32 out of range for slice of length " ++
        Nat.repr bytes.length))

/-- Validation of the selected latest key-version entry in public_key: the
public_key attribute is looked up first, then the name attribute, which
must equal the expected consensus key type; only then is the public key
text decoded. -/
def process_latest_entry (key_name : String) (map : AttrMap) : Outcome (List Nat) :=
  match lookupKey ("public_key") map with
  | some pubk =>
    match lookupKey ("name") map with
    | some key_type =>
      if CONSENUS_KEY_TYPE ≠ key_type then
        .err (.invalidPubKey ("Public key \"" ++ key_name ++ "\": expected key type:" ++
          CONSENUS_KEY_TYPE ++ ", received:" ++ key_type))
      else
        decode_public_key pubk
    | none =>
      .err (.invalidPubKey ("Public key \"" ++ key_name ++ "\": expected key type:" ++
        CONSENUS_KEY_TYPE ++ ", unable to determine type"))
  | none =>
    .err (.invalidPubKey ("Public key: unable to retrieve - \"public_key\" key is not found!"))

/-- The envelope-processing phase of VaultClient::public_key: absence of
data is InvalidPubKey, then the latest key version is selected and
validated, an empty version map being InvalidPubKey as well. -/
def public_key_from_envelope (key_name : String) (env : Root PublicKeyResponse) :
    Outcome (List Nat) :=
  match env.data with
  | none => .err (.invalidPubKey ("Public key: Vault response unavailable"))
  | some data =>
    match select_latest data.keys with
    | some (_version, map) => process_latest_entry key_name map
    | none =>
      .err (.invalidPubKey ("Public key: unable to retrieve last version - not available!"))

/-- VaultClient::public_key with the authenticated HTTP round trip (GET on
the keys endpoint) and the envelope JSON decoding abstracted as a transport
capability from the request URI to a decoded envelope or failure. -/
def public_key (transport : String → Except UreqError (Root PublicKeyResponse))
    (exit_on_error : List Nat) (api_endpoint keys_path key_name : String) :
    Outcome (List Nat) :=
  let uri := api_endpoint ++ keys_path ++ "/" ++ key_name
  match check_response_status_code exit_on_error uri (transport uri) with
  | .ok root => public_key_from_envelope key_name root
  | .err e => .err e
  | .panicked m => .panicked m

/-- The request-construction phase of VaultClient::sign: a zero-length
message is rejected with InvalidEmptyMessage before any request exists;
otherwise the body carries the base64 encoding of the raw bytes. -/
def encode_sign_request (message : List Nat) : Except Error SignRequest :=
  if message.isEmpty then .error (Error.invalidEmptyMessage)
  else .ok { input := base64_encode message }

/-- The signature-decoding tail of VaultClient::sign: split the signature
field on the colon, demand exactly 3 parts, base64-decode the last part
propagating the decode error, demand exactly 64 decoded bytes, and copy
them into the fixed-size array. -/
def decode_signature (signature : String) : Outcome (List Nat) :=
  let parts := splitOnChar ':' signature.data
  if parts.length ≠ 3 then
    .err (.invalidSignature ("expected 3 parts, received:" ++ Nat.repr parts.length ++
      " full:" ++ signature))
  else
    match parts.getLast? with
    | none => .err (.invalidSignature ("last part is not available"))
    | some base64_signature =>
      match base64DecodeChars base64_signature with
      | none => .err (.base64DecodeError ("invalid base64"))
      | some signatureBytes =>
        if signatureBytes.length ≠ 64 then
          .err (.invalidSignature ("invalid signature length! 64 == " ++
            Nat.repr signatureBytes.length))
        else
          .ok (signatureBytes.take SIGNATURE_BYTE_SIZE)

/-- The envelope-processing phase of VaultClient::sign: absence of data is
NoSignature, otherwise the signature field is decoded. -/
def sign_process_envelope (env : Root SignResponse) : Outcome (List Nat) :=
  match env.data with
  | none => .err (Error.noSignature)
  | some data => decode_signature data.signature

/-- VaultClient::sign with the POST round trip abstracted as a transport
capability; the second component records the request bodies actually
handed to the transport, so that the absence of any network call on the
empty message is an observable fact. -/
def sign (transport : String → SignRequest → Except UreqError (Root SignResponse))
    (exit_on_error : List Nat) (api_endpoint sign_path key_name : String)
    (message : List Nat) : Outcome (List Nat) × List SignRequest :=
  match encode_sign_request message with
  | .error e => (.err e, [])
  | .ok body =>
    let uri := api_endpoint ++ sign_path ++ "/" ++ key_name
    let result :=
      match check_response_status_code exit_on_error uri (transport uri body) with
      | .ok root => sign_process_envelope root
      | .err e => .err e
      | .panicked m => .panicked m
    (result, [body])

/-- The process-wide certificate cache, keyed by file path. -/
abbrev CertCache := List (String × List Nat)

/-- read_cert, instrumented: the file system and the PEM-to-DER conversion
are capabilities, the global cache is threaded explicitly, and the third
component counts the underlying file reads performed by the call.  A
failing read or parse panics (expect / unwrap in the source); on a cache
miss the parsed DER bytes are stored and returned, on a hit the stored
bytes are returned without touching the file. -/
def read_cert (fileRead : String → Option (List Nat))
    (pemToDer : List Nat → Option (List Nat)) (cache : CertCache) (path : String) :
    Outcome (List Nat) × CertCache × Nat :=
  match lookupKey path cache with
  | some content => (.ok content, cache, 0)
  | none =>
    match fileRead path with
    | none => (.panicked (.str ("Failed to read CA certificate")), cache, 1)
    | some content =>
      match pemToDer content with
      | none => (.panicked (.str ("failed to parse CA certificate PEM")), cache, 1)
      | some cert_der => (.ok cert_der, (path, cert_der) :: cache, 1)

/-- Modelled from the spec: the endpoint path configuration (the config
module, not under src/) maps the logical endpoints keys, sign, wrapping key
and handshake to URL suffixes.  The concrete default suffixes also live
outside src/, so the default leaves them abstract as empty suffixes; no
claim depends on their values. -/
structure VaultEndpointConfig where
  keys : String
  sign : String
  wrapping_key : String
  handshake : String
  deriving DecidableEq

/-- Modelled from the spec: the Default instance of the endpoint path
configuration, with the concrete suffixes left abstract. -/
def VaultEndpointConfig.default : VaultEndpointConfig :=
  { keys := "", sign := "", wrapping_key := "", handshake := "" }

/-- TLS trust policy of the constructed agent: verification disabled, trust
pinned to an explicit root certificate list, or the platform default. -/
inductive TlsPolicy where
  | disableVerification
  | rootCerts (certs : List (List Nat))
  | systemDefault
  deriving DecidableEq

/-- Observable configuration of the built ureq agent: the global timeout in
seconds, the user-agent header value, and the TLS trust policy. -/
structure AgentConfig where
  timeout_global : Option Nat
  user_agent : String
  tls : TlsPolicy
  deriving DecidableEq

/-- struct VaultClient: the configured agent plus the immutable request
configuration. -/
structure VaultClient where
  agent : AgentConfig
  api_endpoint : String
  endpoints : VaultEndpointConfig
  token : String
  exit_on_error : List Nat
  deriving DecidableEq

/-- The client value VaultClient::new assembles for a given TLS policy: a
5-second global timeout and the name/version user-agent header are always
set, the endpoint map and the fatal code set default when absent. -/
def mkVaultClient (tls : TlsPolicy) (pkg_name pkg_version api_endpoint token : String)
    (endpoints : Option VaultEndpointConfig) (exit_on_error : Option (List Nat)) :
    VaultClient :=
  { agent := { timeout_global := some 5,
               user_agent := pkg_name ++ "/" ++ pkg_version,
               tls := tls },
    api_endpoint := api_endpoint,
    endpoints := endpoints.getD VaultEndpointConfig.default,
    token := token,
    exit_on_error := exit_on_error.getD [] }

/-- VaultClient::new: if either TLS option is present, a true skip_verify
flag disables certificate verification, otherwise a given CA path is
resolved through the certificate cache and pinned as the single root
certificate; with neither branch taken the platform default trust store is
used.  Certificate resolution failures panic, terminating construction. -/
def vault_client_new (fileRead : String → Option (List Nat))
    (pemToDer : List Nat → Option (List Nat)) (cache : CertCache)
    (pkg_name pkg_version api_endpoint token : String)
    (endpoints : Option VaultEndpointConfig) (ca_cert : Option String)
    (skip_verify : Option Bool) (exit_on_error : Option (List Nat)) :
    Outcome VaultClient :=
  if ca_cert.isSome || skip_verify.isSome then
    if skip_verify.getD false then
      .ok (mkVaultClient .disableVerification pkg_name pkg_version api_endpoint token
        endpoints exit_on_error)
    else
      match ca_cert with
      | some path =>
        match read_cert fileRead pemToDer cache path with
        | (.ok cert, _, _) =>
          .ok (mkVaultClient (.rootCerts [cert]) pkg_name pkg_version api_endpoint token
            endpoints exit_on_error)
        | (.panicked m, _, _) => .panicked m
        | (.err e, _, _) => .err e
      | none =>
        .ok (mkVaultClient .systemDefault pkg_name pkg_version api_endpoint token
          endpoints exit_on_error)
  else
    .ok (mkVaultClient .systemDefault pkg_name pkg_version api_endpoint token
      endpoints exit_on_error)

/-! Helper lemmas shared by the claim theorems. -/

/-- A nonempty list has a last element. -/
theorem getLast?_isSome_of_ne_nil {α : Type} : ∀ (l : List α), l ≠ [] → l.getLast?.isSome = true
  | [], h => absurd rfl h
  | [_], _ => by simp
  | _ :: b :: t, _ => by
    rw [List.getLast?_cons_cons]
    exact getLast?_isSome_of_ne_nil (b :: t) (by simp)

/-- In an association list with strictly ascending keys, the last entry has
the maximum key. -/
theorem getLast?_max_of_chain :
    ∀ (l : List (Nat × AttrMap)), l.Chain' (fun a b => a.1 < b.1) →
      ∀ m, l.getLast? = some m → ∀ p ∈ l, p.1 ≤ m.1
  | [], _, _, hm => by simp at hm
  | [a], _, m, hm => by
    simp at hm
    intro p hp
    simp at hp
    rw [hp, hm]
  | a :: b :: t, h, m, hm => by
    rw [List.getLast?_cons_cons] at hm
    rw [List.chain'_cons] at h
    intro p hp
    rcases List.mem_cons.mp hp with rfl | hp2
    · exact le_of_lt (lt_of_lt_of_le h.1
        (getLast?_max_of_chain (b :: t) h.2 m hm b (List.mem_cons_self b t)))
    · exact getLast?_max_of_chain (b :: t) h.2 m hm p hp2

/-- A list is a prefix of itself extended on the right. -/
theorem isPrefixOf_append_self (p s : List Char) : p.isPrefixOf (p ++ s) = true := by
  simp

/-- Substring containment survives prepending one character. -/
theorem listContains_prepend (pat s : List Char) (h : listContains pat s = true) (c : Char) :
    listContains pat (c :: s) = true := by
  simp [listContains, h]

/-- Substring containment survives prepending any list. -/
theorem listContains_append_left :
    ∀ (s1 pat s : List Char), listContains pat s = true → listContains pat (s1 ++ s) = true
  | [], _, _, h => h
  | c :: t, pat, s, h => by
    have ih := listContains_append_left t pat s h
    simpa using listContains_prepend pat (t ++ s) ih c

/-- A list occurs as a substring of itself extended on the right. -/
theorem listContains_self_append (pat s : List Char) : listContains pat (pat ++ s) = true := by
  cases hp : pat ++ s with
  | nil =>
    have h1 : pat = [] := (List.append_eq_nil.mp hp).1
    subst h1
    rfl
  | cons c rest =>
    simp only [listContains]
    rw [← hp, isPrefixOf_append_self]
    simp

/-- A list occurs as a substring of itself. -/
theorem listContains_self (pat : List Char) : listContains pat pat = true := by
  simpa using listContains_self_append pat []

/-- A middle factor of a string concatenation is contained in it. -/
theorem strContains_concat (s1 pat s2 : String) :
    strContainsStr (s1 ++ (pat ++ s2)) pat = true := by
  unfold strContainsStr
  rw [String.data_append, String.data_append]
  exact listContains_append_left s1.data pat.data (pat.data ++ s2.data)
    (listContains_self_append pat.data s2.data)

/-- The right factor of a string concatenation is contained in it. -/
theorem strContains_suffix (s1 pat : String) : strContainsStr (s1 ++ pat) pat = true := by
  unfold strContainsStr
  rw [String.data_append]
  exact listContains_append_left s1.data pat.data pat.data (listContains_self pat.data)

/-! Demonstration data used by the concrete witness statements. -/

/-- A superseded key-version entry. -/
def demoEntryOld : AttrMap := [("public_key", "AAAA"), ("name", "ed25519")]

/-- The current key-version entry; its public key is the base64 encoding of
32 zero bytes. -/
def demoEntryNew : AttrMap :=
  [("public_key", String.mk (List.replicate 43 'A') ++ "="), ("name", "ed25519")]

/-- A two-version key map in ascending version order. -/
def demoKeys : List (Nat × AttrMap) := [(1, demoEntryOld), (2, demoEntryNew)]

/-! The claim theorems. -/

/-- Claim C1: for every non-empty map of key versions (ascending by
version, the BTreeMap invariant), the public-key fetch selects exactly the
entry with the maximum version number and processes only that entry; for an
empty version map it fails with InvalidPubKey. -/
theorem c1_select_latest (key_name : String) (keys : List (Nat × AttrMap))
    (hs : keys.Chain' (fun a b => a.1 < b.1)) :
    (keys = [] →
      public_key_from_envelope key_name (mkRoot (some { keys := keys })) =
        .err (.invalidPubKey ("Public key: unable to retrieve last version - not available!"))) ∧
    (keys ≠ [] → (select_latest keys).isSome = true) ∧
    (∀ v map, select_latest keys = some (v, map) →
      (v, map) ∈ keys ∧ (∀ p ∈ keys, p.1 ≤ v) ∧
        public_key_from_envelope key_name (mkRoot (some { keys := keys })) =
          process_latest_entry key_name map) := by
  refine ⟨?_, ?_, ?_⟩
  · intro h
    rw [h]
    rfl
  · intro h
    exact getLast?_isSome_of_ne_nil keys h
  · intro v map h
    refine ⟨List.mem_of_mem_getLast? (by rw [select_latest] at h; rw [h]; rfl), ?_, ?_⟩
    · exact getLast?_max_of_chain keys hs (v, map) h
    · simp [public_key_from_envelope, mkRoot, h]

/-- Concrete witness for C1: on a two-version map the fetch selects version
2 and processes its entry. -/
theorem c1_select_latest_witness :
    (2, demoEntryNew) ∈ demoKeys ∧ (∀ p ∈ demoKeys, p.1 ≤ 2) ∧
      public_key_from_envelope ("k") (mkRoot (some { keys := demoKeys })) =
        process_latest_entry ("k") demoEntryNew :=
  (c1_select_latest ("k") demoKeys (by simp [demoKeys, List.chain'_cons])).2.2 2 demoEntryNew
    (by decide)

/-- Claim C2, counterexample: for the same non-fatal status code, two
distinct request URIs yield one and the same recoverable error, so the
returned error does not preserve the requested URI - the conversion the
source applies to the status code never receives the URI. -/
theorem c2_classifier_counterexample :
    check_response_status_code ([] : List Nat) ("https://host-a/v1")
        (.error (.statusCode 403) : Except UreqError Nat) =
      check_response_status_code ([] : List Nat) ("https://host-b/v1")
        (.error (.statusCode 403)) ∧
    check_response_status_code ([] : List Nat) ("https://host-a/v1")
        (.error (.statusCode 403) : Except UreqError Nat) =
      .err (.httpStatus 403) := by
  decide

/-- Claim C2 (amended): a status code in the configured fatal set makes the
classifier panic, terminating the process, with a message naming the code
and the URI; a status code absent from that set becomes the recoverable
HttpStatus error carrying the original code (the requested URI is not part
of the returned error, since the conversion receives only the code); a
successful transport response is passed through unchanged. -/
theorem c2_classifier {α : Type} (exit_on_error : List Nat) (uri : String) (code : Nat) :
    (code ∈ exit_on_error →
      check_response_status_code exit_on_error uri
          (.error (.statusCode code) : Except UreqError α) =
        .panicked (.displayError (.prohibitedResponseCode (Nat.repr code) uri))) ∧
    (code ∉ exit_on_error →
      check_response_status_code exit_on_error uri
          (.error (.statusCode code) : Except UreqError α) =
        .err (.httpStatus code)) ∧
    (∀ r : α, check_response_status_code exit_on_error uri (.ok r) = .ok r) := by
  refine ⟨fun h => ?_, fun h => ?_, fun r => rfl⟩
  · simp [check_response_status_code, h]
  · simp [check_response_status_code, h, errorFromUreq]

/-- Concrete witness for C2: fatal code 403 panics naming code and URI,
non-fatal code 500 becomes HttpStatus 500, and a successful response passes
through. -/
theorem c2_classifier_witness :
    check_response_status_code ([403] : List Nat) ("https://v")
        (.error (.statusCode 403) : Except UreqError Nat) =
      .panicked (.displayError (.prohibitedResponseCode (Nat.repr 403) ("https://v"))) ∧
    check_response_status_code ([403] : List Nat) ("https://v")
        (.error (.statusCode 500) : Except UreqError Nat) =
      .err (.httpStatus 500) ∧
    check_response_status_code ([403] : List Nat) ("https://v")
        (.ok 7 : Except UreqError Nat) = .ok 7 :=
  ⟨(c2_classifier [403] ("https://v") 403).1 (by decide),
   (c2_classifier [403] ("https://v") 500).2.1 (by decide),
   (c2_classifier [403] ("https://v") 403).2.2 7⟩

/-- Claim C3: signature decoding splits on the colon and fails with
InvalidSignature unless exactly 3 parts result; with 3 parts it
base64-decodes the last part, fails with InvalidSignature unless exactly 64
bytes were decoded, and otherwise succeeds with exactly those 64 bytes. -/
theorem c3_decode_signature (s : String) :
    ((splitOnChar ':' s.data).length ≠ 3 →
      decode_signature s = .err (.invalidSignature ("expected 3 parts, received:" ++
        Nat.repr (splitOnChar ':' s.data).length ++ " full:" ++ s))) ∧
    (∀ last bs, (splitOnChar ':' s.data).length = 3 →
      (splitOnChar ':' s.data).getLast? = some last →
      base64DecodeChars last = some bs →
      ((bs.length ≠ 64 → decode_signature s =
          .err (.invalidSignature ("invalid signature length! 64 == " ++ Nat.repr bs.length))) ∧
        (bs.length = 64 → decode_signature s = .ok bs))) := by
  refine ⟨fun h => ?_, fun last bs h3 hl hb => ⟨fun hn => ?_, fun he => ?_⟩⟩
  · simp [decode_signature, h]
  · simp [decode_signature, h3, hl, hb, hn]
  · have htake : bs.take SIGNATURE_BYTE_SIZE = bs := by
      rw [SIGNATURE_BYTE_SIZE, ← he, List.take_length]
    simp [decode_signature, h3, hl, hb, he, htake]

/-- Concrete witness for C3: a 2-segment and a 4-segment signature field
both fail with InvalidSignature, and a 3-segment field whose last part is
the base64 encoding of 64 zero bytes succeeds with those 64 bytes. -/
theorem c3_decode_signature_witness :
    decode_signature ("a:b") =
      .err (.invalidSignature ("expected 3 parts, received:2 full:a:b")) ∧
    decode_signature ("a:b:c:d") =
      .err (.invalidSignature ("expected 3 parts, received:4 full:a:b:c:d")) ∧
    decode_signature ("a:b:" ++ String.mk (List.replicate 86 'A') ++ "==") =
      .ok (List.replicate 64 0) :=
  ⟨(c3_decode_signature ("a:b")).1 (by decide),
   (c3_decode_signature ("a:b:c:d")).1 (by decide),
   ((c3_decode_signature ("a:b:" ++ String.mk (List.replicate 86 'A') ++ "==")).2
     (List.replicate 86 'A' ++ ['=', '=']) (List.replicate 64 0)
     (by decide) (by decide) (by decide)).2 (by decide)⟩

/-- Claim C4, counterexample: the public-key text "AAAA" decodes
successfully to 3 bytes - fewer than 32 - and the unchecked slice panics
instead of returning a propagated error. -/
theorem c4_decode_public_key_counterexample :
    base64_decode ("AAAA") = some [0, 0, 0] ∧
    decode_public_key ("AAAA") =
      .panicked (.str ("range end index 32 out of range for slice of length 3")) := by
  decide

/-- Claim C4 (amended): public-key decoding propagates the base64 decode
error when decoding fails; when decoding succeeds with at least 32 bytes it
returns the first 32 bytes; when decoding succeeds with fewer than 32 bytes
the unchecked slice panics rather than returning an error. -/
theorem c4_decode_public_key (s : String) :
    (base64_decode s = none →
      decode_public_key s = .err (.base64DecodeError ("invalid base64"))) ∧
    (∀ bs, base64_decode s = some bs →
      ((32 ≤ bs.length → decode_public_key s = .ok (bs.take 32)) ∧
        (bs.length < 32 → decode_public_key s =
          .panicked (.str ("range end index 32 out of range for slice of length " ++
            Nat.repr bs.length))))) := by
  refine ⟨fun h => ?_, fun bs hb => ⟨fun hge => ?_, fun hlt => ?_⟩⟩
  · simp [decode_public_key, h]
  · simp [decode_public_key, hb, VERIFYING_KEY_BYTE_SIZE, hge]
  · simp [decode_public_key, hb, VERIFYING_KEY_BYTE_SIZE, Nat.not_le.mpr hlt]

/-- Concrete witness for C4: an invalid text propagates the decode error, a
44-character base64 text of 32 zero bytes yields those 32 bytes, and a
short decode panics. -/
theorem c4_decode_public_key_witness :
    decode_public_key ("!!!!") = .err (.base64DecodeError ("invalid base64")) ∧
    decode_public_key (String.mk (List.replicate 43 'A') ++ "=") =
      .ok ((List.replicate 32 0).take 32) ∧
    decode_public_key ("AQID") =
      .panicked (.str ("range end index 32 out of range for slice of length 3")) :=
  ⟨(c4_decode_public_key ("!!!!")).1 (by decide),
   ((c4_decode_public_key (String.mk (List.replicate 43 'A') ++ "=")).2
     (List.replicate 32 0) (by decide)).1 (by decide),
   ((c4_decode_public_key ("AQID")).2 [1, 2, 3] (by decide)).2 (by decide)⟩

/-- Claim C5: signing the empty message fails with InvalidEmptyMessage and
hands no request to the transport, whatever the transport does; for every
non-empty message exactly one request is issued and its body carries the
base64 encoding of the raw message bytes. -/
theorem c5_sign_empty_and_body
    (transport : String → SignRequest → Except UreqError (Root SignResponse))
    (exit_on_error : List Nat) (api_endpoint sign_path key_name : String)
    (message : List Nat) :
    (message = [] →
      sign transport exit_on_error api_endpoint sign_path key_name message =
        (.err (Error.invalidEmptyMessage), [])) ∧
    (message ≠ [] →
      (sign transport exit_on_error api_endpoint sign_path key_name message).2 =
        [{ input := base64_encode message }]) := by
  constructor
  · intro h
    rw [h]
    rfl
  · intro h
    have hne : message.isEmpty = false := by simp [h]
    simp [sign, encode_sign_request, hne]

/-- Concrete witness for C5: with a transport that always fails, signing
the empty message yields InvalidEmptyMessage and an empty request trace,
and signing bytes 1,2,3 hands over exactly one request whose input is their
base64 encoding. -/
theorem c5_sign_empty_and_body_witness :
    sign (fun _ _ => .error (.other ("down"))) [] ("e") ("/sign") ("k") [] =
      (.err (Error.invalidEmptyMessage), []) ∧
    (sign (fun _ _ => .error (.other ("down"))) [] ("e") ("/sign") ("k") [1, 2, 3]).2 =
      [{ input := "AQID" }] ∧
    base64_encode [1, 2, 3] = "AQID" := by
  refine ⟨(c5_sign_empty_and_body (fun _ _ => .error (.other ("down"))) [] ("e") ("/sign")
    ("k") []).1 rfl, ?_, by decide⟩
  have h := (c5_sign_empty_and_body (fun _ _ => .error (.other ("down"))) [] ("e") ("/sign")
    ("k") [1, 2, 3]).2 (by decide)
  rw [h]
  decide

/-- Claim C6, counterexample: a selected entry whose name attribute is
"rsa" (differing from "ed25519") but which lacks the public_key attribute
fails with the public_key-missing InvalidPubKey message, which names
neither the expected nor the actual key type. -/
theorem c6_key_type_counterexample :
    lookupKey ("name") ([("name", "rsa")] : AttrMap) = some ("rsa") ∧
    process_latest_entry ("k") ([("name", "rsa")] : AttrMap) =
      .err (.invalidPubKey
        ("Public key: unable to retrieve - \"public_key\" key is not found!")) ∧
    strContainsStr ("Public key: unable to retrieve - \"public_key\" key is not found!")
      ("rsa") = false ∧
    strContainsStr ("Public key: unable to retrieve - \"public_key\" key is not found!")
      ("ed25519") = false := by
  decide

/-- Claim C6 (amended): for a selected latest entry carrying a public_key
attribute, a name attribute differing from "ed25519" fails with
InvalidPubKey whose message names both the expected and the actual type,
and a missing name attribute fails with InvalidPubKey; a missing public_key
attribute fails with InvalidPubKey as well, its check preceding the type
check, so its message names no types. -/
theorem c6_key_type_validation (key_name : String) (map : AttrMap) :
    (∀ pk t, lookupKey ("public_key") map = some pk → lookupKey ("name") map = some t →
      t ≠ CONSENUS_KEY_TYPE →
      process_latest_entry key_name map = .err (.invalidPubKey
        ("Public key \"" ++ key_name ++ "\": expected key type:" ++ CONSENUS_KEY_TYPE ++
          ", received:" ++ t)) ∧
      strContainsStr ("Public key \"" ++ key_name ++ "\": expected key type:" ++
        CONSENUS_KEY_TYPE ++ ", received:" ++ t) CONSENUS_KEY_TYPE = true ∧
      strContainsStr ("Public key \"" ++ key_name ++ "\": expected key type:" ++
        CONSENUS_KEY_TYPE ++ ", received:" ++ t) t = true) ∧
    (∀ pk, lookupKey ("public_key") map = some pk → lookupKey ("name") map = none →
      process_latest_entry key_name map = .err (.invalidPubKey
        ("Public key \"" ++ key_name ++ "\": expected key type:" ++ CONSENUS_KEY_TYPE ++
          ", unable to determine type"))) ∧
    (lookupKey ("public_key") map = none →
      process_latest_entry key_name map = .err (.invalidPubKey
        ("Public key: unable to retrieve - \"public_key\" key is not found!"))) := by
  refine ⟨fun pk t hpk ht hne => ⟨?_, ?_, ?_⟩, fun pk hpk ht => ?_, fun hpk => ?_⟩
  · simp only [process_latest_entry, hpk, ht]
    rw [if_pos (Ne.symm hne)]
  · rw [String.append_assoc, String.append_assoc]
    exact strContains_concat _ CONSENUS_KEY_TYPE _
  · exact strContains_suffix _ t
  · simp [process_latest_entry, hpk, ht]
  · simp [process_latest_entry, hpk]

/-- Concrete witness for C6: a well-populated entry of type "rsa" fails
with the InvalidPubKey message naming ed25519 and rsa, a typeless entry and
a keyless entry fail with InvalidPubKey. -/
theorem c6_key_type_validation_witness :
    process_latest_entry ("k") ([("public_key", "x"), ("name", "rsa")] : AttrMap) =
      .err (.invalidPubKey ("Public key \"k\": expected key type:ed25519, received:rsa")) ∧
    strContainsStr ("Public key \"k\": expected key type:ed25519, received:rsa")
      ("ed25519") = true ∧
    strContainsStr ("Public key \"k\": expected key type:ed25519, received:rsa")
      ("rsa") = true ∧
    process_latest_entry ("k") ([("public_key", "x")] : AttrMap) =
      .err (.invalidPubKey
        ("Public key \"k\": expected key type:ed25519, unable to determine type")) ∧
    process_latest_entry ("k") ([] : AttrMap) =
      .err (.invalidPubKey
        ("Public key: unable to retrieve - \"public_key\" key is not found!")) := by
  have h1 := (c6_key_type_validation ("k") ([("public_key", "x"), ("name", "rsa")] : AttrMap)).1
    ("x") ("rsa") (by decide) (by decide) (by decide)
  have h2 := (c6_key_type_validation ("k") ([("public_key", "x")] : AttrMap)).2.1
    ("x") (by decide) (by decide)
  have h3 := (c6_key_type_validation ("k") ([] : AttrMap)).2.2 (by decide)
  exact ⟨h1.1, h1.2.1, h1.2.2, h2, h3⟩

/-- Claim C7: a successfully decoded envelope without a data field makes
the public-key fetch fail with InvalidPubKey and makes sign fail with
NoSignature, whatever the remaining envelope fields hold. -/
theorem c7_missing_data (key_name : String) (envPk : Root PublicKeyResponse)
    (envSig : Root SignResponse) :
    (envPk.data = none → public_key_from_envelope key_name envPk =
      .err (.invalidPubKey ("Public key: Vault response unavailable"))) ∧
    (envSig.data = none → sign_process_envelope envSig = .err (Error.noSignature)) := by
  constructor
  · intro h
    simp [public_key_from_envelope, h]
  · intro h
    simp [sign_process_envelope, h]

/-- Concrete witness for C7: the envelope fixture without data produces
InvalidPubKey on the public-key path and NoSignature on the sign path. -/
theorem c7_missing_data_witness :
    public_key_from_envelope ("k") (mkRoot none) =
      .err (.invalidPubKey ("Public key: Vault response unavailable")) ∧
    sign_process_envelope (mkRoot none) = .err (Error.noSignature) :=
  ⟨(c7_missing_data ("k") (mkRoot none) (mkRoot none)).1 rfl,
   (c7_missing_data ("k") (mkRoot none) (mkRoot none)).2 rfl⟩

/-- Claim C8: starting from an empty cache, resolving a certificate path
whose read and parse succeed returns the parsed bytes with one file read,
and resolving the same path again on the resulting cache returns
byte-identical content with zero further file reads - one read in total. -/
theorem c8_cert_cache (fileRead : String → Option (List Nat))
    (pemToDer : List Nat → Option (List Nat)) (path : String) (content der : List Nat)
    (hread : fileRead path = some content) (hpem : pemToDer content = some der) :
    (read_cert fileRead pemToDer [] path).1 = .ok der ∧
    (read_cert fileRead pemToDer [] path).2.2 = 1 ∧
    (read_cert fileRead pemToDer (read_cert fileRead pemToDer [] path).2.1 path).1 =
      .ok der ∧
    (read_cert fileRead pemToDer (read_cert fileRead pemToDer [] path).2.1 path).2.2 = 0 := by
  have h1 : read_cert fileRead pemToDer [] path = (.ok der, [(path, der)], 1) := by
    simp [read_cert, lookupKey, hread, hpem]
  refine ⟨by rw [h1], by rw [h1], ?_, ?_⟩
  · rw [h1]
    simp [read_cert, lookupKey]
  · rw [h1]
    simp [read_cert, lookupKey]

/-- Concrete witness for C8: a concrete file system and parser give the
cached DER bytes twice with a single read. -/
theorem c8_cert_cache_witness :
    (read_cert (fun _ => some [10, 20]) (fun _ => some [1, 2, 3]) [] ("ca.pem")).1 =
      .ok [1, 2, 3] ∧
    (read_cert (fun _ => some [10, 20]) (fun _ => some [1, 2, 3]) [] ("ca.pem")).2.2 = 1 ∧
    (read_cert (fun _ => some [10, 20]) (fun _ => some [1, 2, 3])
      (read_cert (fun _ => some [10, 20]) (fun _ => some [1, 2, 3]) [] ("ca.pem")).2.1
      ("ca.pem")).1 = .ok [1, 2, 3] ∧
    (read_cert (fun _ => some [10, 20]) (fun _ => some [1, 2, 3])
      (read_cert (fun _ => some [10, 20]) (fun _ => some [1, 2, 3]) [] ("ca.pem")).2.1
      ("ca.pem")).2.2 = 0 :=
  c8_cert_cache (fun _ => some [10, 20]) (fun _ => some [1, 2, 3]) ("ca.pem")
    [10, 20] [1, 2, 3] rfl rfl

/-- Every successfully constructed client is the assembled client value for
some TLS policy; shared by the construction claim. -/
theorem vault_client_new_ok_shape (fileRead : String → Option (List Nat))
    (pemToDer : List Nat → Option (List Nat)) (cache : CertCache)
    (pkg_name pkg_version api_endpoint token : String)
    (endpoints : Option VaultEndpointConfig) (ca_cert : Option String)
    (skip_verify : Option Bool) (exit_on_error : Option (List Nat)) (c : VaultClient)
    (hc : vault_client_new fileRead pemToDer cache pkg_name pkg_version api_endpoint token
      endpoints ca_cert skip_verify exit_on_error = .ok c) :
    ∃ tls, c = mkVaultClient tls pkg_name pkg_version api_endpoint token endpoints
      exit_on_error := by
  unfold vault_client_new at hc
  split at hc
  · split at hc
    · exact ⟨_, by simpa using hc.symm⟩
    · split at hc
      · split at hc
        · exact ⟨_, by simpa using hc.symm⟩
        · simp at hc
        · simp at hc
      · exact ⟨_, by simpa using hc.symm⟩
  · exact ⟨_, by simpa using hc.symm⟩

/-- Claim C9: client construction selects the TLS trust policy in priority
order - a true skip-verification flag disables validation; otherwise a
given CA path pins trust to exactly the single certificate it resolves to;
otherwise the platform default trust store is used - and every constructed
client carries the 5-second global timeout and the name/version user-agent
header. -/
theorem c9_client_construction (fileRead : String → Option (List Nat))
    (pemToDer : List Nat → Option (List Nat)) (cache : CertCache)
    (pkg_name pkg_version api_endpoint token : String)
    (endpoints : Option VaultEndpointConfig) (ca_cert : Option String)
    (skip_verify : Option Bool) (exit_on_error : Option (List Nat)) :
    (skip_verify = some true →
      vault_client_new fileRead pemToDer cache pkg_name pkg_version api_endpoint token
          endpoints ca_cert skip_verify exit_on_error =
        .ok (mkVaultClient .disableVerification pkg_name pkg_version api_endpoint token
          endpoints exit_on_error)) ∧
    (skip_verify ≠ some true → ∀ path der, ca_cert = some path →
      (read_cert fileRead pemToDer cache path).1 = .ok der →
      vault_client_new fileRead pemToDer cache pkg_name pkg_version api_endpoint token
          endpoints ca_cert skip_verify exit_on_error =
        .ok (mkVaultClient (.rootCerts [der]) pkg_name pkg_version api_endpoint token
          endpoints exit_on_error)) ∧
    (skip_verify ≠ some true → ca_cert = none →
      vault_client_new fileRead pemToDer cache pkg_name pkg_version api_endpoint token
          endpoints ca_cert skip_verify exit_on_error =
        .ok (mkVaultClient .systemDefault pkg_name pkg_version api_endpoint token
          endpoints exit_on_error)) ∧
    (∀ c, vault_client_new fileRead pemToDer cache pkg_name pkg_version api_endpoint token
        endpoints ca_cert skip_verify exit_on_error = .ok c →
      c.agent.timeout_global = some 5 ∧
        c.agent.user_agent = pkg_name ++ "/" ++ pkg_version) := by
  refine ⟨fun h => ?_, fun h path der hca hrc => ?_, fun h hca => ?_, fun c hc => ?_⟩
  · rw [h]
    simp [vault_client_new]
  · have hgd : skip_verify.getD false = false := by
      cases skip_verify with
      | none => rfl
      | some b =>
        cases b with
        | false => rfl
        | true => exact absurd rfl h
    rcases hr : read_cert fileRead pemToDer cache path with ⟨r, c2, n⟩
    rw [hr] at hrc
    simp only at hrc
    rw [hrc] at hr
    rw [hca]
    simp [vault_client_new, hgd, hr]
  · have hgd : skip_verify.getD false = false := by
      cases skip_verify with
      | none => rfl
      | some b =>
        cases b with
        | false => rfl
        | true => exact absurd rfl h
    rw [hca]
    simp [vault_client_new, hgd]
  · obtain ⟨tls, rfl⟩ := vault_client_new_ok_shape fileRead pemToDer cache pkg_name
      pkg_version api_endpoint token endpoints ca_cert skip_verify exit_on_error c hc
    exact ⟨rfl, rfl⟩

/-- Concrete witness for C9: skip-verification wins over a CA path, a CA
path without skip-verification pins the single resolved certificate, no TLS
options give the platform default, and the constructed client carries the
timeout and user-agent header. -/
theorem c9_client_construction_witness :
    vault_client_new (fun _ => some [7]) (fun _ => some [9]) [] ("tmkms") ("0.14")
        ("api") ("tok") none (some ("p")) (some true) none =
      .ok (mkVaultClient .disableVerification ("tmkms") ("0.14") ("api") ("tok")
        none none) ∧
    vault_client_new (fun _ => some [7]) (fun _ => some [9]) [] ("tmkms") ("0.14")
        ("api") ("tok") none (some ("p")) none none =
      .ok (mkVaultClient (.rootCerts [[9]]) ("tmkms") ("0.14") ("api") ("tok")
        none none) ∧
    vault_client_new (fun _ => some [7]) (fun _ => some [9]) [] ("tmkms") ("0.14")
        ("api") ("tok") none none (some false) none =
      .ok (mkVaultClient .systemDefault ("tmkms") ("0.14") ("api") ("tok")
        none none) ∧
    (mkVaultClient .disableVerification ("tmkms") ("0.14") ("api") ("tok")
        none none).agent.timeout_global = some 5 ∧
    (mkVaultClient .disableVerification ("tmkms") ("0.14") ("api") ("tok")
        none none).agent.user_agent = "tmkms" ++ "/" ++ "0.14" := by
  refine ⟨(c9_client_construction (fun _ => some [7]) (fun _ => some [9]) [] ("tmkms")
    ("0.14") ("api") ("tok") none (some ("p")) (some true) none).1 rfl, ?_, ?_, ?_⟩
  · exact (c9_client_construction (fun _ => some [7]) (fun _ => some [9]) [] ("tmkms")
      ("0.14") ("api") ("tok") none (some ("p")) none none).2.1 (by decide) ("p") [9]
      rfl (by decide)
  · exact (c9_client_construction (fun _ => some [7]) (fun _ => some [9]) [] ("tmkms")
      ("0.14") ("api") ("tok") none none (some false) none).2.2.1 (by decide) rfl
  · exact (c9_client_construction (fun _ => some [7]) (fun _ => some [9]) [] ("tmkms")
      ("0.14") ("api") ("tok") none (some ("p")) (some true) none).2.2.2
      (mkVaultClient .disableVerification ("tmkms") ("0.14") ("api") ("tok") none none)
      (by decide)

/-- Claim C10: a 3-segment signature field whose last segment fails base64
decoding yields the propagated decode error, not InvalidSignature; and
every InvalidSignature outcome of signature decoding stems from a segment
count other than 3 or from a successfully decoded length other than 64. -/
theorem c10_signature_error_discrimination (s : String) :
    (∀ last, (splitOnChar ':' s.data).length = 3 →
      (splitOnChar ':' s.data).getLast? = some last →
      base64DecodeChars last = none →
      decode_signature s = .err (.base64DecodeError ("invalid base64"))) ∧
    (∀ m, decode_signature s = .err (.invalidSignature m) →
      (splitOnChar ':' s.data).length ≠ 3 ∨
      (∃ last bs, (splitOnChar ':' s.data).getLast? = some last ∧
        base64DecodeChars last = some bs ∧ bs.length ≠ 64)) := by
  constructor
  · intro last h3 hl hb
    simp [decode_signature, h3, hl, hb]
  · intro m hm
    by_cases h3 : (splitOnChar ':' s.data).length = 3
    · right
      have hne : splitOnChar ':' s.data ≠ [] := by
        intro h
        rw [h] at h3
        simp at h3
      obtain ⟨last, hl⟩ := Option.isSome_iff_exists.mp (getLast?_isSome_of_ne_nil _ hne)
      cases hb : base64DecodeChars last with
      | none =>
        exfalso
        simp [decode_signature, h3, hl, hb] at hm
      | some bs =>
        refine ⟨last, bs, hl, hb, fun h64 => ?_⟩
        simp [decode_signature, h3, hl, hb, h64] at hm
    · exact Or.inl h3

/-- Concrete witness for C10: the field a:b:!!! has 3 segments and an
undecodable last segment and fails with the propagated decode error, while
the 2-segment field a:b lands in the segment-count disjunct. -/
theorem c10_signature_error_discrimination_witness :
    decode_signature ("a:b:!!!") = .err (.base64DecodeError ("invalid base64")) ∧
    ((splitOnChar ':' ("a:b").data).length ≠ 3 ∨
      (∃ last bs, (splitOnChar ':' ("a:b").data).getLast? = some last ∧
        base64DecodeChars last = some bs ∧ bs.length ≠ 64)) :=
  ⟨(c10_signature_error_discrimination ("a:b:!!!")).1 ("!!!".data) (by decide) (by decide)
    (by decide),
   (c10_signature_error_discrimination ("a:b")).2
    ("expected 3 parts, received:2 full:a:b") (by decide)⟩

end Hashicorp
